import Mathlib

/-!
Verification of the pdf2csv pipeline (src/main.py and src/pdf2csv.py).

Strings are modelled as lists of characters.  A text file is modelled by the
result of Python's `readlines()`: the ordered list of its lines, each line
keeping its terminating newline character when one exists.  External
collaborators (the PDF rasterizer, the OCR engine, the Gemini service, the
file system, the environment) are modelled as explicit parameters, and the
side effects of the pipeline functions (error messages shown, network
requests issued, file writes performed) are returned as explicit data.
-/

namespace Pdf2Csv

/-- A Python string, modelled as its list of characters. -/
abbrev PyStr := List Char

/-- Python's `str.replace(old, new)`: replace every non-overlapping occurrence
of `old` (scanning left to right) by `new`.  For the empty pattern the scan
below keeps the string unchanged; the pipeline only ever uses one-character
patterns, for which this definition coincides with Python exactly. -/
def pyReplace (s old new : PyStr) : PyStr :=
  match s with
  | [] => []
  | c :: rest =>
    if h : old ≠ [] ∧ old <+: (c :: rest) then
      new ++ pyReplace ((c :: rest).drop old.length) old new
    else
      c :: pyReplace rest old new
termination_by s.length
decreasing_by
  · simp only [List.length_drop, List.length_cons]
    have hpos : 0 < old.length := List.length_pos.mpr h.1
    omega
  · simp only [List.length_cons]
    omega

/-- `line.replace(",", "").replace(" ", ",").replace("\"", "")`: the per-line
transformation performed by `txt_to_csv` in both src/main.py (lines 79-83)
and src/pdf2csv.py (lines 64-68). -/
def transformLine (line : PyStr) : PyStr :=
  let without_comma := pyReplace line [','] []
  let with_added_commas := pyReplace without_comma [' '] [',']
  pyReplace with_added_commas ['"'] []

/-- `txt_to_csv` (src/main.py lines 74-84, src/pdf2csv.py lines 59-69): for
each text file in order, for each of its lines in order, append the
transformed line to the accumulated list.  The input is the list of files,
each given by its `readlines()` result. -/
def txt_to_csv (txt_files : List (List PyStr)) : List PyStr :=
  txt_files.foldl
    (fun acc lines =>
      lines.foldl
        (fun acc2 line =>
          let without_comma := pyReplace line [','] []
          let with_added_commas := pyReplace without_comma [' '] [',']
          let cleaned_line := pyReplace with_added_commas ['"'] []
          acc2 ++ [cleaned_line])
        acc)
    []

/-! ### Spec-side characterisations of the three replacement steps -/

/-- Removing every comma character, as the spec words it. -/
def removeCommas (s : PyStr) : PyStr := s.filter (fun c => c ≠ ',')

/-- Replacing every space character by a comma separator, as the spec words it. -/
def spacesToSeparators (s : PyStr) : PyStr :=
  s.map (fun c => if c = ' ' then ',' else c)

/-- Removing every double-quote character, as the spec words it. -/
def removeQuotes (s : PyStr) : PyStr := s.filter (fun c => c ≠ '"')

/-- The spec's per-line transform: remove commas, then turn spaces into
separators, then remove double quotes, in exactly that order. -/
def specLineTransform (s : PyStr) : PyStr :=
  removeQuotes (spacesToSeparators (removeCommas s))

/-! ### Lemmas about `pyReplace` on one-character patterns -/

lemma singleton_prefix_iff (a c : Char) (l : List Char) :
    [a] <+: (c :: l) ↔ a = c := by
  simp [List.cons_prefix_cons]

/-- `s.replace(c, "")` deletes every occurrence of the character `c`. -/
lemma pyReplace_delete (a : Char) (s : PyStr) :
    pyReplace s [a] [] = s.filter (fun c => c ≠ a) := by
  induction s with
  | nil => simp [pyReplace]
  | cons c rest ih =>
    rw [pyReplace]
    by_cases hca : a = c
    · subst hca
      simp [singleton_prefix_iff, ih]
    · simp [singleton_prefix_iff, hca, ih, Ne.symm hca]

/-- `s.replace(a, b)` for one-character `a`, `b` maps `a` to `b` pointwise. -/
lemma pyReplace_map (a b : Char) (s : PyStr) :
    pyReplace s [a] [b] = s.map (fun c => if c = a then b else c) := by
  induction s with
  | nil => simp [pyReplace]
  | cons c rest ih =>
    rw [pyReplace]
    by_cases hca : a = c
    · subst hca
      simp [singleton_prefix_iff, ih]
    · simp [singleton_prefix_iff, hca, ih, Ne.symm hca]

/-- The per-line transform computed by the source equals the spec's
filter/map/filter composition. -/
lemma transformLine_eq_spec (s : PyStr) :
    transformLine s = specLineTransform s := by
  simp [transformLine, specLineTransform, removeCommas, spacesToSeparators,
    removeQuotes, pyReplace_delete, pyReplace_map]

/-- Function-level form of `transformLine_eq_spec`. -/
lemma transformLine_funeq : transformLine = specLineTransform :=
  funext transformLine_eq_spec

/-! ### Structure of `txt_to_csv` -/

lemma foldl_append_singleton {α β : Type} (f : α → β) (l : List α) (acc : List β) :
    l.foldl (fun a x => a ++ [f x]) acc = acc ++ l.map f := by
  induction l generalizing acc with
  | nil => simp
  | cons x xs ih => simp [ih]

lemma txt_to_csv_foldl (txt_files : List (List PyStr)) (acc : List PyStr) :
    txt_files.foldl
        (fun acc lines =>
          lines.foldl
            (fun acc2 line =>
              let without_comma := pyReplace line [','] []
              let with_added_commas := pyReplace without_comma [' '] [',']
              let cleaned_line := pyReplace with_added_commas ['"'] []
              acc2 ++ [cleaned_line])
            acc)
        acc
      = acc ++ (txt_files.map (fun lines => lines.map transformLine)).flatten := by
  induction txt_files generalizing acc with
  | nil => simp
  | cons lines rest ih =>
    simp only [List.foldl_cons, ih, List.map_cons, List.flatten_cons]
    rw [show (fun acc2 line =>
          let without_comma := pyReplace line [','] []
          let with_added_commas := pyReplace without_comma [' '] [',']
          let cleaned_line := pyReplace with_added_commas ['"'] []
          acc2 ++ [cleaned_line])
        = (fun (acc2 : List PyStr) line => acc2 ++ [transformLine line]) from rfl]
    rw [foldl_append_singleton transformLine lines acc]
    simp

/-- `txt_to_csv` maps the per-line transform over every line of every file,
in order. -/
lemma txt_to_csv_eq (txt_files : List (List PyStr)) :
    txt_to_csv txt_files = (txt_files.flatten).map transformLine := by
  rw [txt_to_csv, txt_to_csv_foldl]
  simp [List.map_flatten]

/-- One step of the spec transform on a cons cell: commas and double quotes
disappear, a space becomes a comma, every other character is kept. -/
lemma specLineTransform_cons (x : Char) (xs : PyStr) :
    specLineTransform (x :: xs) =
      if x = ',' then specLineTransform xs
      else if x = '"' then specLineTransform xs
      else (if x = ' ' then ',' else x) :: specLineTransform xs := by
  unfold specLineTransform removeCommas spacesToSeparators removeQuotes
  by_cases h1 : x = ','
  · simp [h1]
  · by_cases h2 : x = '"'
    · subst h2
      simp [h1]
    · by_cases h3 : x = ' '
      · subst h3
        simp [h1, h2]
      · simp [h1, h2, h3]

/-- The spec transform distributes over append. -/
lemma specLineTransform_append (a b : PyStr) :
    specLineTransform (a ++ b) = specLineTransform a ++ specLineTransform b := by
  simp [specLineTransform, removeCommas, spacesToSeparators, removeQuotes]

/-- Characters other than commas, double quotes and spaces keep their
number of occurrences through the transform. -/
lemma count_specLineTransform (c : Char) (hc : c ≠ ',') (hq : c ≠ '"')
    (hs : c ≠ ' ') (s : PyStr) :
    (specLineTransform s).count c = s.count c := by
  induction s with
  | nil => rfl
  | cons x xs ih =>
    rw [specLineTransform_cons]
    by_cases h1 : x = ','
    · subst h1
      simp [List.count_cons, ih, hc]
    · by_cases h2 : x = '"'
      · subst h2
        simp [h1, List.count_cons, ih, hq]
      · by_cases h3 : x = ' '
        · subst h3
          simp [h1, h2, List.count_cons, ih, hs, hc]
        · simp [h1, h2, h3, List.count_cons, ih]

/-- On a line with no comma and no double quote, the transform is exactly
the pointwise space-to-comma substitution. -/
lemma specLineTransform_of_no_comma_no_quote (s : PyStr)
    (hc : ',' ∉ s) (hq : '"' ∉ s) :
    specLineTransform s = s.map (fun c => if c = ' ' then ',' else c) := by
  induction s with
  | nil => rfl
  | cons x xs ih =>
    have hx1 : x ≠ ',' := fun h => hc (h ▸ List.mem_cons_self x xs)
    have hx2 : x ≠ '"' := fun h => hq (h ▸ List.mem_cons_self x xs)
    have hxs1 : ',' ∉ xs := fun h => hc (List.mem_cons_of_mem x h)
    have hxs2 : '"' ∉ xs := fun h => hq (List.mem_cons_of_mem x h)
    rw [specLineTransform_cons]
    simp [hx1, hx2, ih hxs1 hxs2]

/-- On a line with no comma, no double quote and no space, the transform is
the identity. -/
lemma specLineTransform_of_clean (s : PyStr)
    (hc : ',' ∉ s) (hq : '"' ∉ s) (hs : ' ' ∉ s) :
    specLineTransform s = s := by
  rw [specLineTransform_of_no_comma_no_quote s hc hq]
  conv_rhs => rw [← List.map_id s]
  apply List.map_congr_left
  intro a ha
  have : a ≠ ' ' := fun h => hs (h ▸ ha)
  simp [this]

/-! ## Effect model for the rasterizer and analysis adapters

File writes, network requests and displayed error messages are recorded as
explicit data.  The file system is a map from path to contents. -/

/-- A record of file writes, applied left to right to a file-system map. -/
def applyWrites (ws : List (String × String)) (disk : String → Option String) :
    String → Option String :=
  ws.foldl (fun d pc => fun q => if q = pc.1 then some pc.2 else d q) disk

/-- Python truthiness of an optional string: `not x` holds for `None` and
for the empty string. -/
def pyFalsy (x : Option String) : Bool :=
  match x with
  | none => true
  | some s => s == ""

/-- The observable outcome of `analyze_csv_with_gemini` in src/pdf2csv.py
(lines 83-100): error messages shown, network requests issued, file writes
performed, and the returned value. -/
structure GeminiOutcome where
  errors : List String
  networkRequests : List String
  fileWrites : List (String × String)
  result : Option String
  deriving Repr, DecidableEq

/-- `analyze_csv_with_gemini` from src/pdf2csv.py lines 83-100, with the
environment and the generative service passed in explicitly.  `generate`
models `model.generate(prompt)`: `Except.error` is a raised exception.  The
function writes no file in any branch, exactly as in the source. -/
def analyze_csv_with_gemini (env : String → Option String)
    (generate : String → Except String String) (csv_content : String) :
    GeminiOutcome :=
  let api_key := env "GEMINI_API_KEY"
  if pyFalsy api_key then
    { errors := ["API key not found. Please set the GEMINI_API_KEY environment variable."],
      networkRequests := [], fileWrites := [], result := none }
  else
    let prompt := "Analyze the following CSV data and extract details along with the selected checkboxes:\n"
      ++ csv_content
    match generate prompt with
    | Except.ok response =>
      { errors := [], networkRequests := [prompt], fileWrites := [],
        result := some response }
    | Except.error e =>
      { errors := ["An error occurred while analyzing the CSV with Gemini AI: " ++ e],
        networkRequests := [prompt], fileWrites := [], result := none }

/-- A Python exception, distinguished by the classes the source catches. -/
inductive PyExc where
  | typeError (msg : String)
  | attributeError (msg : String)
  | other (msg : String)
  deriving Repr, DecidableEq

/-- The observable outcome of `analyze_csv_with_gemini` in src/main.py
(lines 93-117): error messages shown, text displayed, file writes, the
returned string, and an exception escaping the function (always `none`
because every branch is caught). -/
structure AnalysisOutcome where
  errors : List String
  displayed : List String
  fileWrites : List (String × String)
  retval : String
  raised : Option PyExc
  deriving Repr, DecidableEq

/-- `analyze_csv_with_gemini` from src/main.py lines 93-117, with the
generative service passed in explicitly.  `generate_content` returns the
response's optional `text` attribute (`none` models a response without a
`text` attribute, handled by the source's `hasattr` check); `Except.error`
is a raised exception, dispatched to the source's three `except` clauses. -/
def analyze_csv_with_gemini_main
    (generate_content : String → Except PyExc (Option String))
    (csv_content output_filename : String) : AnalysisOutcome :=
  match generate_content ("just convert the text errors and display it in csv\n" ++ csv_content) with
  | Except.ok response =>
    let response_text := response.getD "No response text found"
    { errors := []
      displayed := [response_text,
        "Saved Gemini analysis to CSV: " ++ output_filename]
      fileWrites := [(output_filename, response_text)]
      retval := output_filename
      raised := none }
  | Except.error (PyExc.typeError e) =>
    { errors := ["TypeError: " ++ e], displayed := [], fileWrites := []
      retval := "A TypeError occurred.", raised := none }
  | Except.error (PyExc.attributeError e) =>
    { errors := ["AttributeError: " ++ e], displayed := [], fileWrites := []
      retval := "An AttributeError occurred.", raised := none }
  | Except.error (PyExc.other e) =>
    { errors := ["An unexpected error occurred: " ++ e], displayed := []
      fileWrites := [], retval := "An unexpected error occurred.", raised := none }

/-- `pdf_to_jpg` from src/pdf2csv.py lines 30-38 (src/main.py lines 47-54 is
identical apart from the page range passed to the rasterizer): the external
rasterizer's output is the list `images`; each image is saved under the name
`page_<i+1>.jpg` where `i` is its 0-based position in that list. -/
def pdf_to_jpg {α : Type} (images : List α) : List String :=
  (images.enum.foldl
    (fun acc p =>
      let img_filename := "page_" ++ toString (p.1 + 1) ++ ".jpg"
      acc ++ [img_filename])
    [])

/-! ## Claims about the reformatter -/

/-- C1: for every input line, `txt_to_csv` produces the line obtained by
first removing every comma, then replacing every remaining space by a comma
separator, then removing every double quote, in exactly that order. -/
theorem C1_per_line_step_order (txt_files : List (List PyStr)) :
    txt_to_csv txt_files
      = (txt_files.flatten).map
          (fun line => removeQuotes (spacesToSeparators (removeCommas line))) := by
  rw [txt_to_csv_eq]
  have h : transformLine
      = fun line => removeQuotes (spacesToSeparators (removeCommas line)) :=
    funext transformLine_eq_spec
  rw [h]

/-- C2 fails on the code: on the line `"John Doe, Age: 30"` the reformatter
does not produce `"John,Doe,,Age:,30"`, because the comma after `Doe` is
removed before spaces are turned into separators, leaving a single space
between `Doe` and `Age:`. -/
theorem C2_counterexample :
    transformLine "John Doe, Age: 30".toList ≠ "John,Doe,,Age:,30".toList := by
  rw [transformLine_eq_spec]
  decide

/-- C2 amended: on the line `"John Doe, Age: 30"` the reformatter yields
exactly `"John,Doe,Age:,30"`. -/
theorem C2_amended_concrete_line :
    transformLine "John Doe, Age: 30".toList = "John,Doe,Age:,30".toList := by
  rw [transformLine_eq_spec]
  decide

/-- C3: the output list has exactly one line per input line (total over all
files), and a line that ends with a newline character is transformed into a
line that still ends with that newline character. -/
theorem C3_line_count_and_newline_preserved (txt_files : List (List PyStr)) :
    (txt_to_csv txt_files).length = (txt_files.map List.length).sum ∧
    ∀ line ∈ txt_files.flatten, line.getLast? = some '\n' →
      (transformLine line).getLast? = some '\n' := by
  constructor
  · rw [txt_to_csv_eq, List.length_map, List.length_flatten]
  · intro line _ hlast
    obtain ⟨l', rfl⟩ := List.getLast?_eq_some_iff.mp hlast
    rw [transformLine_eq_spec, specLineTransform_append]
    have hnl : specLineTransform ['\n'] = ['\n'] := by decide
    rw [hnl, List.getLast?_append_of_ne_nil]
    · rfl
    · simp

/-- C3 witness at a concrete input. -/
theorem C3_witness :
    (transformLine ['a', ' ', 'b', '\n']).getLast? = some '\n' :=
  (C3_line_count_and_newline_preserved [[['a', ' ', 'b', '\n']]]).2
    ['a', ' ', 'b', '\n'] (by simp) (by decide)

/-- C4: the reformatter is a homomorphism for file concatenation and maps a
single file to its lines transformed in order, so lines appear in the output
in page order and, within a page, in line order, with no reordering and no
deduplication. -/
theorem C4_page_and_line_order (fs1 fs2 : List (List PyStr)) (lines : List PyStr) :
    txt_to_csv (fs1 ++ fs2) = txt_to_csv fs1 ++ txt_to_csv fs2 ∧
    txt_to_csv [lines] = lines.map transformLine := by
  constructor
  · simp [txt_to_csv_eq]
  · simp [txt_to_csv_eq]

/-- C5 fails on the code: the line `"a b"` contains no comma and no double
quote, yet applying the per-line transform twice does not give the same
result as applying it once — the first pass turns the space into a comma and
the second pass deletes that comma. -/
theorem C5_counterexample :
    (',' ∉ (['a', ' ', 'b'] : PyStr) ∧ '"' ∉ (['a', ' ', 'b'] : PyStr)) ∧
    transformLine (transformLine ['a', ' ', 'b'])
      ≠ transformLine ['a', ' ', 'b'] := by
  constructor
  · decide
  · simp only [transformLine_eq_spec]
    decide

/-- C5 amended: on input lines free of comma, double-quote and space
characters, the per-line transform is idempotent (indeed the identity). -/
theorem C5_amended_idempotent (s : PyStr)
    (hc : ',' ∉ s) (hq : '"' ∉ s) (hs : ' ' ∉ s) :
    transformLine (transformLine s) = transformLine s := by
  have hid : transformLine s = s := by
    rw [transformLine_eq_spec]
    exact specLineTransform_of_clean s hc hq hs
  rw [hid]
  exact hid

/-- C5 witness at a concrete input. -/
theorem C5_witness :
    transformLine (transformLine ['a', 'b']) = transformLine ['a', 'b'] :=
  C5_amended_idempotent ['a', 'b'] (by decide) (by decide) (by decide)

/-- C9: every line of the reformatter's output contains no space character
and no double-quote character, for every input. -/
theorem C9_output_free_of_space_and_quote (txt_files : List (List PyStr)) :
    ∀ line ∈ txt_to_csv txt_files, ' ' ∉ line ∧ '"' ∉ line := by
  intro line hline
  rw [txt_to_csv_eq] at hline
  obtain ⟨src, _, rfl⟩ := List.mem_map.mp hline
  rw [transformLine_eq_spec]
  constructor
  · intro hmem
    unfold specLineTransform removeQuotes spacesToSeparators removeCommas at hmem
    rw [List.mem_filter] at hmem
    obtain ⟨c, _, hc⟩ := List.mem_map.mp hmem.1
    by_cases h : c = ' ' <;> simp [h] at hc
  · intro hmem
    unfold specLineTransform removeQuotes at hmem
    rw [List.mem_filter] at hmem
    simp at hmem

/-- C9 witness at a concrete input. -/
theorem C9_witness :
    ' ' ∉ (['a', ','] : PyStr) ∧ '"' ∉ (['a', ','] : PyStr) :=
  C9_output_free_of_space_and_quote [[['a', ' ', '"']]] ['a', ',']
    (by rw [txt_to_csv_eq, transformLine_funeq]
        decide)

/-- C10: each space becomes exactly one comma (a run of `k` spaces becomes
`k` commas), and tab, newline and carriage-return characters pass through
unchanged — whitespace runs are never collapsed. -/
theorem C10_space_to_comma_pointwise :
    (∀ s : PyStr, ',' ∉ s → '"' ∉ s →
      transformLine s = s.map (fun c => if c = ' ' then ',' else c)) ∧
    (∀ k : Nat, transformLine (List.replicate k ' ') = List.replicate k ',') ∧
    (∀ (s : PyStr) (c : Char), c = '\t' ∨ c = '\n' ∨ c = '\r' →
      (transformLine s).count c = s.count c) := by
  refine ⟨?_, ?_, ?_⟩
  · intro s hc hq
    rw [transformLine_eq_spec]
    exact specLineTransform_of_no_comma_no_quote s hc hq
  · intro k
    rw [transformLine_eq_spec,
      specLineTransform_of_no_comma_no_quote (List.replicate k ' ')
        (by simp) (by simp)]
    simp
  · intro s c hc
    rw [transformLine_eq_spec]
    rcases hc with h | h | h <;> subst h <;>
      exact count_specLineTransform _ (by decide) (by decide) (by decide) s

/-- C10 witness at concrete inputs. -/
theorem C10_witness :
    transformLine ['a', ' ', ' ', 'b']
      = ['a', ' ', ' ', 'b'].map (fun c => if c = ' ' then ',' else c) ∧
    transformLine (List.replicate 3 ' ') = List.replicate 3 ',' ∧
    (transformLine ['a', '\t', ',', '\n']).count '\t'
      = (['a', '\t', ',', '\n'] : PyStr).count '\t' :=
  ⟨C10_space_to_comma_pointwise.1 ['a', ' ', ' ', 'b'] (by decide) (by decide),
   C10_space_to_comma_pointwise.2.1 3,
   C10_space_to_comma_pointwise.2.2 ['a', '\t', ',', '\n'] '\t' (Or.inl rfl)⟩

/-! ## Claims about the analysis and rasterizer adapters -/

/-- C6: when the `GEMINI_API_KEY` credential is absent from the environment,
the analysis adapter reports an authentication error, issues no network
request, performs no file write — so the previously written `output.csv`
artifact is unchanged on disk — and returns no result. -/
theorem C6_missing_key_aborts_before_network
    (env : String → Option String) (generate : String → Except String String)
    (csv_content : String) (disk : String → Option String)
    (h : env "GEMINI_API_KEY" = none) :
    (analyze_csv_with_gemini env generate csv_content).networkRequests = [] ∧
    (analyze_csv_with_gemini env generate csv_content).errors ≠ [] ∧
    (analyze_csv_with_gemini env generate csv_content).result = none ∧
    applyWrites (analyze_csv_with_gemini env generate csv_content).fileWrites disk
      = disk := by
  unfold analyze_csv_with_gemini
  rw [h]
  simp [pyFalsy, applyWrites]

/-- C6 witness at a concrete environment with the credential absent. -/
theorem C6_witness :
    (analyze_csv_with_gemini (fun _ => none) (fun _ => Except.ok "ok") "a,b").networkRequests = [] ∧
    (analyze_csv_with_gemini (fun _ => none) (fun _ => Except.ok "ok") "a,b").errors ≠ [] ∧
    (analyze_csv_with_gemini (fun _ => none) (fun _ => Except.ok "ok") "a,b").result = none ∧
    applyWrites (analyze_csv_with_gemini (fun _ => none) (fun _ => Except.ok "ok") "a,b").fileWrites
        (fun _ => none)
      = (fun _ => none) :=
  C6_missing_key_aborts_before_network (fun _ => none) (fun _ => Except.ok "ok")
    "a,b" (fun _ => none) rfl

/-- C7: every exception raised by the generative-service call inside the
analysis step is caught: no exception escapes the adapter, an error message
is reported to the user, and no file is written, so every artifact already
on disk (including `output.csv`) is unchanged — the run is a partial
success. -/
theorem C7_analysis_errors_caught_artifacts_kept
    (generate_content : String → Except PyExc (Option String))
    (csv_content output_filename : String) (disk : String → Option String)
    (e : PyExc)
    (h : generate_content
        ("just convert the text errors and display it in csv\n" ++ csv_content)
      = Except.error e) :
    (analyze_csv_with_gemini_main generate_content csv_content output_filename).raised = none ∧
    (analyze_csv_with_gemini_main generate_content csv_content output_filename).errors ≠ [] ∧
    (analyze_csv_with_gemini_main generate_content csv_content output_filename).fileWrites = [] ∧
    applyWrites
        (analyze_csv_with_gemini_main generate_content csv_content output_filename).fileWrites
        disk
      = disk := by
  unfold analyze_csv_with_gemini_main
  rw [h]
  cases e <;> simp [applyWrites]

/-- C7 witness at a concrete failing service. -/
theorem C7_witness :
    (analyze_csv_with_gemini_main (fun _ => Except.error (PyExc.other "boom")) "x"
        "gemini_analysis_output.csv").raised = none ∧
    (analyze_csv_with_gemini_main (fun _ => Except.error (PyExc.other "boom")) "x"
        "gemini_analysis_output.csv").errors ≠ [] ∧
    (analyze_csv_with_gemini_main (fun _ => Except.error (PyExc.other "boom")) "x"
        "gemini_analysis_output.csv").fileWrites = [] ∧
    applyWrites
        (analyze_csv_with_gemini_main (fun _ => Except.error (PyExc.other "boom")) "x"
          "gemini_analysis_output.csv").fileWrites
        (fun _ => some "kept")
      = (fun _ => some "kept") :=
  C7_analysis_errors_caught_artifacts_kept
    (fun _ => Except.error (PyExc.other "boom")) "x" "gemini_analysis_output.csv"
    (fun _ => some "kept") (PyExc.other "boom") rfl

/-- `pdf_to_jpg` names the produced files by 1-based position in the
rasterizer's output sequence. -/
lemma pdf_to_jpg_eq (α : Type) (images : List α) :
    pdf_to_jpg images
      = (List.range images.length).map
          (fun i => "page_" ++ toString (i + 1) ++ ".jpg") := by
  unfold pdf_to_jpg
  rw [show (fun (acc : List String) (p : Nat × α) =>
        let img_filename := "page_" ++ toString (p.1 + 1) ++ ".jpg"
        acc ++ [img_filename])
      = (fun (acc : List String) (p : Nat × α) =>
          acc ++ [(fun q : Nat × α => "page_" ++ toString (q.1 + 1) ++ ".jpg") p])
      from rfl]
  rw [foldl_append_singleton]
  rw [show (fun q : Nat × α => "page_" ++ toString (q.1 + 1) ++ ".jpg")
      = (fun i : Nat => "page_" ++ toString (i + 1) ++ ".jpg") ∘ Prod.fst from rfl]
  rw [← List.map_map, List.enum_map_fst]
  simp

/-- C8: for a page range `[first, last]` with `first ≤ last`, if the
rasterizer returns one image per page of the range then exactly
`last - first + 1` page image files are produced, and the file at 0-based
position `k` of the produced sequence is named `page_<k+1>.jpg`. -/
theorem C8_page_count_and_names (α : Type) (first last : Nat)
    (h1 : 1 ≤ first) (h2 : first ≤ last) (images : List α)
    (him : images.length = last - first + 1) :
    (pdf_to_jpg images).length = last - first + 1 ∧
    ∀ k, (hk : k < (pdf_to_jpg images).length) →
      (pdf_to_jpg images).get ⟨k, hk⟩ = "page_" ++ toString (k + 1) ++ ".jpg" := by
  constructor
  · rw [pdf_to_jpg_eq, List.length_map, List.length_range, him]
  · intro k hk
    rw [List.get_eq_getElem]
    simp only [pdf_to_jpg_eq, List.getElem_map]
    rw [List.getElem_range]

/-- C8 witness for the page range `[2, 3]` and a two-image rasterizer
result. -/
theorem C8_witness :
    (pdf_to_jpg ([10, 20] : List Nat)).length = 3 - 2 + 1 ∧
    ∀ k, (hk : k < (pdf_to_jpg ([10, 20] : List Nat)).length) →
      (pdf_to_jpg ([10, 20] : List Nat)).get ⟨k, hk⟩
        = "page_" ++ toString (k + 1) ++ ".jpg" :=
  C8_page_count_and_names Nat 2 3 (by decide) (by decide) [10, 20] (by decide)

end Pdf2Csv
